import Mathlib

/-!
Shallow embedding of the checkout-time risk evaluation and bot-mitigation
pipeline of the ShopifyAbondonedCheckoutExtrationWithEmailer repository.

Embedded source files:
 - server/services/ipGeolocation.ts  (geolocation enrichment, risk scoring)
 - server/routes.ts                  (client-IP resolver, validation routes, CAPTCHA verifier)
 - server/storage.ts                 (in-memory validation record store, stats)

Modelling conventions:
 - JavaScript strings are Lean String values; the string operations the code
   uses (startsWith, includes, toLowerCase, trim, split, substring) are
   re-implemented below on character lists so that they reduce in the kernel.
 - JavaScript numbers are idealized as exact rationals (Rat) where fractional
   (the reCAPTCHA score, the conversion-rate arithmetic) and as Nat/Int where
   integral (risk score, cart fields, timestamps).
 - Optional / possibly-undefined JSON fields are Option values; JavaScript
   truthiness tests on strings compare against the empty string, on booleans
   use Option.getD false, mirroring each concrete test in the source.
 - Asynchronous external calls (the AbstractAPI geolocation provider, the
   reCAPTCHA Enterprise endpoint) are modelled by passing the outcome of the
   single provider interaction as an explicit argument of an outcome type
   with transport-error, HTTP-error and success cases.
 - Timestamps (new Date()) are passed in explicitly as Nat arguments.
-/

/-! ## JavaScript-style string primitives (kernel-reducible) -/

/-- Substring occurrence test on character lists; strContainsL pat hay is true
iff pat occurs contiguously in hay (the semantics of String.prototype.includes). -/
def strContainsL (pat : List Char) : List Char → Bool
  | [] => pat.isEmpty
  | c :: rest => pat.isPrefixOf (c :: rest) || strContainsL pat rest

/-- JavaScript s.includes(pat). -/
def strContains (s pat : String) : Bool := strContainsL pat.data s.data

/-- ASCII lower-casing of one character (enough for the case-insensitive
keyword matching the source performs on ISP names and user agents). -/
def lowerChar (c : Char) : Char :=
  if 65 ≤ c.toNat && c.toNat ≤ 90 then Char.ofNat (c.toNat + 32) else c

/-- JavaScript s.toLowerCase() restricted to ASCII letters. -/
def lowerStr (s : String) : String := String.mk (s.data.map lowerChar)

/-- JavaScript s.startsWith(pat). -/
def sStarts (s pat : String) : Bool := pat.data.isPrefixOf s.data

/-- Whitespace characters removed by String.prototype.trim (the ASCII ones). -/
def isSpaceChar (c : Char) : Bool := c == ' ' || c == '\t' || c == '\n' || c == '\r'

/-- Trim of a character list on both ends. -/
def trimL (l : List Char) : List Char :=
  ((l.dropWhile isSpaceChar).reverse.dropWhile isSpaceChar).reverse

/-- Characters before the first comma: JavaScript h.split(',')[0]. -/
def takeUntilComma : List Char → List Char
  | [] => []
  | c :: rest => if c == ',' then [] else c :: takeUntilComma rest

/-- JavaScript h.split(',')[0]?.trim() on a present header value. -/
def firstForwarded (h : String) : String := String.mk (trimL (takeUntilComma h.data))

/-- Decimal digit character. -/
def digitChar (d : Nat) : Char := Char.ofNat (48 + d)

/-- Fuel-driven decimal rendering of a natural number. -/
def natToDigits : Nat → Nat → List Char
  | 0, _ => []
  | f + 1, n => if n < 10 then [digitChar n] else natToDigits f (n / 10) ++ [digitChar (n % 10)]

/-- Decimal string of a natural number (kernel-reducible Nat.repr). -/
def natRepr (n : Nat) : String := String.mk (natToDigits (n + 1) n)

/-- Floor of a rational (denominators are positive, so Euclidean division of
the numerator by the denominator is the floor). -/
def ratFloor (q : Rat) : Int := Int.ediv q.num (q.den : Int)

/-- Two-digit zero-padded rendering of a value below 100. -/
def pad2 (m : Nat) : String := if m < 10 then "0" ++ natRepr m else natRepr m

/-- Model of JavaScript Number.prototype.toFixed(2): round the (idealized
exact) value to the nearest hundredth, ties away from zero upward, and render
with exactly two decimal places. -/
def toFixed2 (q : Rat) : String :=
  let n : Int := ratFloor (q * 100 + 1 / 2)
  let sign : String := if n < 0 then "-" else ""
  let m : Nat := n.natAbs
  sign ++ natRepr (m / 100) ++ "." ++ pad2 (m % 100)

/-- JavaScript a || b where a is a possibly-undefined string (undefined and
the empty string are falsy). -/
def jsOrStr (o : Option String) (d : String) : String :=
  match o with
  | some s => if s = "" then d else s
  | none => d

/-- Truthiness of a possibly-undefined string value. -/
def jsTruthy : Option String → Bool
  | some s => decide (s ≠ "")
  | none => false

/-- Truthiness of a possibly-undefined boolean flag. -/
def jsBool (o : Option Bool) : Bool := o.getD false

/-! ## Geolocation enrichment (server/services/ipGeolocation.ts) -/

/-- Coarse threat classification, ipGeolocation.ts line 22. -/
inductive ThreatLevel
  | low
  | medium
  | high
  deriving DecidableEq

/-- Provider connection block of the AbstractAPI JSON response. -/
structure AbstractConnection where
  isp_name : Option String := none
  connection_type : Option String := none
  organization_name : Option String := none
  autonomous_system_number : Option String := none
  routing_domain : Option String := none
  deriving DecidableEq

/-- Provider security block of the AbstractAPI JSON response. -/
structure AbstractSecurity where
  is_vpn : Option Bool := none
  is_proxy : Option Bool := none
  is_tor : Option Bool := none
  threat_score : Option Rat := none
  deriving DecidableEq

/-- Provider timezone block of the AbstractAPI JSON response. -/
structure AbstractTimezone where
  name : Option String := none
  gmt_offset : Option Int := none
  deriving DecidableEq

/-- Provider currency block of the AbstractAPI JSON response. -/
structure AbstractCurrency where
  name : Option String := none
  deriving DecidableEq

/-- Raw AbstractAPI geolocation response, as consumed by transformApiResponse
(ipGeolocation.ts lines 208-239).  Numeric latitude and longitude are
idealized as their rendered decimal strings. -/
structure AbstractApiResponse where
  ip_address : String
  country : Option String := none
  country_code : Option String := none
  region : Option String := none
  city : Option String := none
  postal_code : Option String := none
  latitude : Option String := none
  longitude : Option String := none
  timezone : Option AbstractTimezone := none
  currency : Option AbstractCurrency := none
  connection : Option AbstractConnection := none
  security : Option AbstractSecurity := none
  deriving DecidableEq

/-- Backend-only ISP routing details, ipGeolocation.ts lines 24-28 and 230-237. -/
structure InternalIspData where
  autonomous_system_number : Option String := none
  routing_domain : Option String := none
  network_details_asn : Option String := none
  network_details_isp : Option AbstractConnection := none
  deriving DecidableEq

/-- IpGeolocationData, ipGeolocation.ts lines 3-29. -/
structure IpGeolocationData where
  ip : String
  country : Option String := none
  country_code : Option String := none
  region : Option String := none
  city : Option String := none
  zip_code : Option String := none
  latitude : Option String := none
  longitude : Option String := none
  timezone : Option String := none
  timezone_name : Option String := none
  timezone_gmt_offset : Option Int := none
  currency : Option String := none
  isp : Option String := none
  connection_type : Option String := none
  organization : Option String := none
  is_vpn : Option Bool := none
  is_proxy : Option Bool := none
  is_tor : Option Bool := none
  threat_level : Option ThreatLevel := none
  internal_isp_data : Option InternalIspData := none
  deriving DecidableEq

/-- getMockLocationData, ipGeolocation.ts lines 149-206: the deterministic
no-provider enrichment rule table keyed on the shape of the IP string. -/
def getMockLocationData (ipAddress : String) : IpGeolocationData :=
  let ip := ipAddress
  if sStarts ip "192.168." || sStarts ip "10." || sStarts ip "172." then
    { ip := ip
      country := some "United States"
      country_code := some "US"
      region := some "Local Network"
      city := some "Local"
      isp := some "Private Network"
      is_vpn := some false
      is_proxy := some false
      is_tor := some false
      threat_level := some ThreatLevel.low }
  else if strContains ip "5.5.5." || strContains ip "9.9.9." then
    { ip := ip
      country := some "Netherlands"
      country_code := some "NL"
      region := some "North Holland"
      city := some "Amsterdam"
      isp := some "VPN Service Provider"
      is_vpn := some true
      is_proxy := some false
      is_tor := some false
      threat_level := some ThreatLevel.medium }
  else
    { ip := ip
      country := some "United States"
      country_code := some "US"
      region := some "California"
      city := some "San Francisco"
      latitude := some "37.7749"
      longitude := some "-122.4194"
      timezone := some "America/Los_Angeles"
      timezone_name := some "America/Los_Angeles"
      timezone_gmt_offset := some (-8)
      currency := some "USD"
      isp := some "Residential ISP"
      connection_type := some "Residential"
      is_vpn := some false
      is_proxy := some false
      is_tor := some false
      threat_level := some ThreatLevel.low }

/-- calculateThreatLevel, ipGeolocation.ts lines 241-251.  An undefined
threat score behaves as a failed comparison in JavaScript; getD 0 gives the
same outcome against the positive thresholds. -/
def calculateThreatLevel (security : Option AbstractSecurity) : ThreatLevel :=
  match security with
  | none => ThreatLevel.low
  | some s =>
    if jsBool s.is_tor || decide ((7 : Rat) / 10 < s.threat_score.getD 0) then ThreatLevel.high
    else if jsBool s.is_vpn || jsBool s.is_proxy
        || decide ((3 : Rat) / 10 < s.threat_score.getD 0) then ThreatLevel.medium
    else ThreatLevel.low

/-- Truthiness filter for the conditional latitude and longitude conversion
(ipGeolocation.ts lines 216-217), on the string-idealized numeric field. -/
def jsNumStrOpt (o : Option String) : Option String :=
  match o with
  | some s => if s = "" then none else some s
  | none => none

/-- transformApiResponse, ipGeolocation.ts lines 208-239. -/
def transformApiResponse (data : AbstractApiResponse) : IpGeolocationData :=
  { ip := data.ip_address
    country := data.country
    country_code := data.country_code
    region := data.region
    city := data.city
    zip_code := data.postal_code
    latitude := jsNumStrOpt data.latitude
    longitude := jsNumStrOpt data.longitude
    timezone := data.timezone.bind AbstractTimezone.name
    timezone_name := data.timezone.bind AbstractTimezone.name
    timezone_gmt_offset := data.timezone.bind AbstractTimezone.gmt_offset
    currency := data.currency.bind AbstractCurrency.name
    isp := data.connection.bind AbstractConnection.isp_name
    connection_type := data.connection.bind AbstractConnection.connection_type
    organization := data.connection.bind AbstractConnection.organization_name
    is_vpn := some (jsBool (data.security.bind AbstractSecurity.is_vpn))
    is_proxy := some (jsBool (data.security.bind AbstractSecurity.is_proxy))
    is_tor := some (jsBool (data.security.bind AbstractSecurity.is_tor))
    threat_level := some (calculateThreatLevel data.security)
    internal_isp_data := some
      { autonomous_system_number := data.connection.bind AbstractConnection.autonomous_system_number
        routing_domain := data.connection.bind AbstractConnection.routing_domain
        network_details_asn := data.connection.bind AbstractConnection.autonomous_system_number
        network_details_isp := data.connection } }

/-- Outcome of the single AbstractAPI HTTP interaction performed by
getLocationData: a transport error (fetch rejected), a non-ok HTTP status, or
a parsed JSON body. -/
inductive GeoOutcome
  | transportError
  | httpError (status : Nat) (body : String)
  | ok (data : AbstractApiResponse)
  deriving DecidableEq

/-- Service configuration: the ABSTRACT_API_IP_GEOLOCATION_KEY environment
value, already defaulted to demo-key by the constructor (ipGeolocation.ts
line 45). -/
structure GeoConfig where
  apiKey : String
  deriving DecidableEq

/-- Fallback record returned by the catch block of getLocationData,
ipGeolocation.ts lines 81-85. -/
def fallbackLocationData (ipAddress : String) : IpGeolocationData :=
  { ip := ipAddress
    country := some "Unknown"
    threat_level := some ThreatLevel.low }

/-- getLocationData, ipGeolocation.ts lines 48-87.  A non-ok HTTP response
throws inside the try block and is caught together with transport errors, so
both produce the fallback record; no exception escapes. -/
def getLocationData (cfg : GeoConfig) (oracle : GeoOutcome) (ipAddress : String) :
    IpGeolocationData :=
  if cfg.apiKey = "demo-key" || cfg.apiKey = "" then getMockLocationData ipAddress
  else
    match oracle with
    | GeoOutcome.transportError => fallbackLocationData ipAddress
    | GeoOutcome.httpError _ _ => fallbackLocationData ipAddress
    | GeoOutcome.ok data => transformApiResponse data

/-! ## Risk scoring (ipGeolocation.ts lines 89-147, 253-267) -/

/-- The pipeline decision, ipGeolocation.ts line 37. -/
inductive Recommendation
  | allow
  | challenge
  | block
  deriving DecidableEq

/-- IpValidationResult, ipGeolocation.ts lines 31-38. -/
structure IpValidationResult where
  ip : String
  isValid : Bool
  riskScore : Nat
  locationData : IpGeolocationData
  riskFactors : List String
  recommendation : Recommendation
  deriving DecidableEq

/-- High-risk country table, ipGeolocation.ts line 111. -/
def highRiskCountries : List String := ["CN", "RU", "IR", "KP"]

/-- Datacenter keyword table, ipGeolocation.ts line 254. -/
def datacenterKeywords : List String :=
  ["amazon", "google", "microsoft", "digitalocean", "linode", "vultr", "hetzner"]

/-- Bot user-agent pattern table, ipGeolocation.ts lines 260-264; each regex
is a case-insensitive plain-substring pattern. -/
def botPatterns : List String :=
  ["bot", "crawler", "spider", "scraper", "curl", "wget", "python", "php",
   "selenium", "phantomjs", "headless"]

/-- isDatacenterIsp, ipGeolocation.ts lines 253-257. -/
def isDatacenterIsp (isp : String) : Bool :=
  datacenterKeywords.any (fun keyword => strContains (lowerStr isp) keyword)

/-- isBot (user-agent analysis), ipGeolocation.ts lines 259-267. -/
def isBotUA (userAgent : String) : Bool :=
  botPatterns.any (fun pat => strContains (lowerStr userAgent) pat)

/-- VPN factor condition, ipGeolocation.ts line 95. -/
def vpnDetected (loc : IpGeolocationData) : Bool := jsBool loc.is_vpn

/-- Proxy factor condition, ipGeolocation.ts line 100. -/
def proxyDetected (loc : IpGeolocationData) : Bool := jsBool loc.is_proxy

/-- Tor factor condition, ipGeolocation.ts line 105. -/
def torDetected (loc : IpGeolocationData) : Bool := jsBool loc.is_tor

/-- High-risk country condition, ipGeolocation.ts line 112; the country code
must be truthy (present and non-empty) and listed. -/
def highRiskCountryDetected (loc : IpGeolocationData) : Bool :=
  match loc.country_code with
  | some cc => if cc = "" then false else highRiskCountries.any (fun c => c = cc)
  | none => false

/-- Datacenter ISP condition, ipGeolocation.ts line 118. -/
def datacenterDetected (loc : IpGeolocationData) : Bool :=
  match loc.isp with
  | some isp => if isp = "" then false else isDatacenterIsp isp
  | none => false

/-- Bot user-agent condition, ipGeolocation.ts line 124. -/
def botDetected (userAgent : Option String) : Bool :=
  match userAgent with
  | some ua => if ua = "" then false else isBotUA ua
  | none => false

/-- The additive risk accumulation of validateUserLocation (ipGeolocation.ts
lines 92-127), written as the sum of the six sequential increments. -/
def codeRiskSum (loc : IpGeolocationData) (userAgent : Option String) : Nat :=
  (if vpnDetected loc then 30 else 0) +
  (if proxyDetected loc then 25 else 0) +
  (if torDetected loc then 50 else 0) +
  (if highRiskCountryDetected loc then 20 else 0) +
  (if datacenterDetected loc then 15 else 0) +
  (if botDetected userAgent then 40 else 0)

/-- The riskFactors list accumulated in the same order (ipGeolocation.ts
lines 96-126). -/
def codeRiskFactors (loc : IpGeolocationData) (userAgent : Option String) : List String :=
  (if vpnDetected loc then ["VPN detected"] else []) ++
  (if proxyDetected loc then ["Proxy detected"] else []) ++
  (if torDetected loc then ["Tor network detected"] else []) ++
  (if highRiskCountryDetected loc then ["High-risk country"] else []) ++
  (if datacenterDetected loc then ["Datacenter IP"] else []) ++
  (if botDetected userAgent then ["Bot user agent detected"] else [])

/-- The pure scoring part of validateUserLocation (ipGeolocation.ts lines
89-147) applied to an already-obtained enrichment result: the recommendation
and isValid are computed from the unclamped accumulator, the returned
riskScore is Math.min(accumulator, 100). -/
def validateUserScore (ipAddress : String) (locationData : IpGeolocationData)
    (userAgent : Option String) : IpValidationResult :=
  { ip := ipAddress
    isValid := decide (codeRiskSum locationData userAgent < 70)
    riskScore := min (codeRiskSum locationData userAgent) 100
    locationData := locationData
    riskFactors := codeRiskFactors locationData userAgent
    recommendation :=
      if 70 ≤ codeRiskSum locationData userAgent then Recommendation.block
      else if 30 ≤ codeRiskSum locationData userAgent then Recommendation.challenge
      else Recommendation.allow }

/-- validateUserLocation, ipGeolocation.ts lines 89-147: enrichment followed
by the pure scoring step. -/
def validateUserLocation (cfg : GeoConfig) (oracle : GeoOutcome) (ipAddress : String)
    (userAgent : Option String) : IpValidationResult :=
  validateUserScore ipAddress (getLocationData cfg oracle ipAddress) userAgent

/-- Sum of the triggered factor weights as the specification words it: each
factor contributes its fixed weight when its condition holds on the
enrichment result or user agent (spec section 4.3 weight table). -/
def claimRiskSum (loc : IpGeolocationData) (userAgent : Option String) : Nat :=
  (if jsBool loc.is_vpn then 30 else 0) +
  (if jsBool loc.is_proxy then 25 else 0) +
  (if jsBool loc.is_tor then 50 else 0) +
  (if (loc.country_code.map (fun cc => highRiskCountries.any (fun c => c = cc))).getD false
    then 20 else 0) +
  (if (loc.isp.map isDatacenterIsp).getD false then 15 else 0) +
  (if (userAgent.map isBotUA).getD false then 40 else 0)

/-- The recommendation as a function of a risk score, per the spec section
4.3 thresholds. -/
def recommendationOf (s : Nat) : Recommendation :=
  if 70 ≤ s then Recommendation.block
  else if 30 ≤ s then Recommendation.challenge
  else Recommendation.allow

/-- Classifies the provider-interaction outcomes that take the catch or
non-ok path of getLocationData. -/
def geoFailure : GeoOutcome → Bool
  | GeoOutcome.transportError => true
  | GeoOutcome.httpError _ _ => true
  | GeoOutcome.ok _ => false

/-! ## Client IP resolver (routes.ts getClientIp, lines 18-39) -/

/-- The request metadata getClientIp consults: req.ip (Express, trust proxy),
the x-forwarded-for header, and the raw socket peer addresses. -/
structure RequestMeta where
  reqIp : Option String := none
  xForwardedFor : Option String := none
  connectionRemoteAddress : Option String := none
  socketRemoteAddress : Option String := none
  deriving DecidableEq

/-- IPv6-mapped-IPv4 prefix stripping, routes.ts lines 23-25. -/
def stripMappedV6 (ip : String) : String :=
  if sStarts ip "::ffff:" then String.mk (ip.data.drop 7) else ip

/-- Final fallback of getClientIp, routes.ts line 38. -/
def rawPeerFallback (req : RequestMeta) : String :=
  jsOrStr req.connectionRemoteAddress (jsOrStr req.socketRemoteAddress "127.0.0.1")

/-- getClientIp, routes.ts lines 18-39.  The transport peer address is
preferred when truthy and, after prefix stripping, outside all four private
ranges; the forwarded-for fallback re-checks only the 127. and 192.168.
ranges; the final fallback is the raw peer address or 127.0.0.1. -/
def getClientIp (req : RequestMeta) : String :=
  let fromReqIp : Option String :=
    match req.reqIp with
    | some ip0 =>
      if ip0 = "" then none
      else
        let ip := stripMappedV6 ip0
        if sStarts ip "127." || sStarts ip "192.168."
            || sStarts ip "10." || sStarts ip "172." then none
        else some ip
    | none => none
  match fromReqIp with
  | some ip => ip
  | none =>
    match req.xForwardedFor with
    | some h =>
      let forwarded := firstForwarded h
      if forwarded = "" then rawPeerFallback req
      else if sStarts forwarded "127." || sStarts forwarded "192.168." then rawPeerFallback req
      else forwarded
    | none => rawPeerFallback req

/-- The private and loopback ranges the claim lists for the transport peer
address: 127.*, 192.168.*, 10.* and 172.*. -/
def privateRangePeer (ip : String) : Bool :=
  sStarts ip "127." || sStarts ip "192.168." || sStarts ip "10." || sStarts ip "172."

/-- The ranges actually rejected on the forwarded-for fallback: only 127.*
and 192.168.* (the amended claim; 10.* and 172.* entries are accepted). -/
def privateRangeFwd (ip : String) : Bool :=
  sStarts ip "127." || sStarts ip "192.168."

/-- The resolver algorithm as the amended claim words it: prefer the
stripped transport peer address when present and outside the peer private
ranges; otherwise the first trimmed forwarded-for entry when non-empty and
outside the forwarded ranges; otherwise the raw peer address, defaulting to
127.0.0.1. -/
def clientIpSpec (req : RequestMeta) : String :=
  let fwdPhase : String :=
    match req.xForwardedFor with
    | some h =>
      if firstForwarded h = "" then rawPeerFallback req
      else if privateRangeFwd (firstForwarded h) then rawPeerFallback req
      else firstForwarded h
    | none => rawPeerFallback req
  match req.reqIp with
  | some peer =>
    if peer = "" then fwdPhase
    else if privateRangePeer (stripMappedV6 peer) then fwdPhase
    else stripMappedV6 peer
  | none => fwdPhase

/-! ## CAPTCHA verification (routes.ts verifyCaptcha, lines 185-266) -/

/-- tokenProperties block of a reCAPTCHA Enterprise assessment. -/
structure RecaptchaTokenProperties where
  valid : Bool
  action : Option String := none
  deriving DecidableEq

/-- riskAnalysis block of a reCAPTCHA Enterprise assessment. -/
structure RecaptchaRiskAnalysis where
  score : Option Rat := none
  deriving DecidableEq

/-- Parsed JSON body of a reCAPTCHA Enterprise assessment response. -/
structure RecaptchaAssessment where
  tokenProperties : Option RecaptchaTokenProperties := none
  riskAnalysis : Option RecaptchaRiskAnalysis := none
  deriving DecidableEq

/-- Outcome of the single reCAPTCHA Enterprise HTTP interaction. -/
inductive CaptchaOutcome
  | transportError
  | httpError (status : Nat) (body : String)
  | ok (result : RecaptchaAssessment)
  deriving DecidableEq

/-- The effective score used at routes.ts line 245: riskAnalysis?.score || 0
(an absent block, an absent score, and a zero score all yield 0). -/
def effectiveScore (result : RecaptchaAssessment) : Rat :=
  (result.riskAnalysis.bind RecaptchaRiskAnalysis.score).getD 0

/-- verifyCaptcha, routes.ts lines 185-266.  The declared type defaults to
recaptcha when absent (JavaScript default parameter); credsConfigured models
the presence of both GOOGLE_CLOUD_PROJECT_ID and GOOGLE_CLOUD_API_KEY; the
provider interaction outcome is passed explicitly.  An action mismatch only
logs a warning and does not change the result. -/
def verifyCaptcha (response : String) (captchaType : Option String)
    (credsConfigured : Bool) (outcome : CaptchaOutcome) : Bool :=
  let t := captchaType.getD "recaptcha"
  if t = "recaptcha" || t = "google" then
    if !credsConfigured then false
    else if response = "" then false
    else
      match outcome with
      | CaptchaOutcome.transportError => false
      | CaptchaOutcome.httpError _ _ => false
      | CaptchaOutcome.ok result =>
        match result.tokenProperties with
        | none => false
        | some tp =>
          if !tp.valid then false
          else decide ((1 : Rat) / 2 ≤ effectiveScore result)
  else if t = "mock" then
    sStarts response "mock-captcha-response-"
      && decide (20 ≤ response.length) && decide (response.length ≤ 100)
  else false

/-! ## Validation record store (server/storage.ts) and routes (routes.ts) -/

/-- captchaData payload written by the captcha route, routes.ts lines
166-170; the ISO timestamp is idealized as a Nat instant. -/
structure CaptchaData where
  type : String
  timestamp : Nat
  verified : Bool
  deriving DecidableEq

/-- UserValidation record (shared/schema.ts userValidations row as used by
the pipeline); createdAt is idealized as a Nat instant. -/
structure UserValidation where
  id : String
  sessionId : String
  ipAddress : String
  userAgent : Option String := none
  cartValue : Option Nat := none
  cartItems : Option Nat := none
  validationType : String
  validationResult : String
  riskScore : Option Nat := none
  locationData : Option IpGeolocationData := none
  captchaData : Option CaptchaData := none
  isBot : Bool
  proceedToCheckout : Bool
  completedOrder : Bool
  createdAt : Nat
  deriving DecidableEq

/-- A Partial update as passed to MemStorage.updateUserValidation; only the
fields some caller actually supplies are modelled.  A present captchaData or
proceedToCheckout entry carries the new value. -/
structure ValidationUpdate where
  validationType : Option String := none
  validationResult : Option String := none
  captchaData : Option (Option CaptchaData) := none
  proceedToCheckout : Option Bool := none
  deriving DecidableEq

/-- The spread-merge of storage.ts line 172: existing fields survive, fields
present in the update override. -/
def mergeUpdate (r : UserValidation) (u : ValidationUpdate) : UserValidation :=
  { r with
    validationType := u.validationType.getD r.validationType
    validationResult := u.validationResult.getD r.validationResult
    captchaData := u.captchaData.getD r.captchaData
    proceedToCheckout := u.proceedToCheckout.getD r.proceedToCheckout }

/-- The in-memory store: the userValidations map in insertion order
(JavaScript Map preserves insertion order, which getUserValidationsBySession
and the proceed route rely on). -/
def getUserValidation (store : List UserValidation) (id : String) : Option UserValidation :=
  store.find? (fun r => r.id = id)

/-- MemStorage.getUserValidationsBySession, storage.ts lines 160-164. -/
def getUserValidationsBySession (store : List UserValidation) (sessionId : String) :
    List UserValidation :=
  store.filter (fun r => r.sessionId = sessionId)

/-- MemStorage.updateUserValidation, storage.ts lines 166-175: throws (Except
error) when the id is unknown, otherwise stores the spread-merged record. -/
def updateUserValidation (store : List UserValidation) (id : String) (u : ValidationUpdate) :
    Except String (List UserValidation × UserValidation) :=
  match getUserValidation store id with
  | none => Except.error ("User validation with id " ++ id ++ " not found")
  | some existing =>
    let updated := mergeUpdate existing u
    Except.ok (store.map (fun r => if r.id = id then updated else r), updated)

/-- MemStorage.getValidationStats result, storage.ts line 24. -/
structure ValidationStats where
  total : Nat
  passed : Nat
  failed : Nat
  botCount : Nat
  deriving DecidableEq

/-- MemStorage.getValidationStats, storage.ts lines 183-191. -/
def getValidationStats (store : List UserValidation) : ValidationStats :=
  { total := store.length
    passed := (store.filter (fun v => v.validationResult = "passed")).length
    failed := (store.filter (fun v => v.validationResult = "failed")).length
    botCount := (store.filter (fun v => v.isBot)).length }

/-- MemStorage.getValidationsByDateRange, storage.ts lines 177-181. -/
def getValidationsByDateRange (store : List UserValidation) (startDate endDate : Nat) :
    List UserValidation :=
  store.filter (fun v => decide (startDate ≤ v.createdAt) && decide (v.createdAt ≤ endDate))

/-- Body of POST /api/validation/validate-user after zod validation
(routes.ts lines 44-49). -/
structure ValidateUserRequest where
  sessionId : String
  cartValue : Option Nat := none
  cartItems : Option Nat := none
  userAgent : Option String := none
  deriving DecidableEq

/-- The validate-user route, routes.ts lines 59-136, restricted to its effect
on the validation store: reject an empty sessionId (zod min 1), otherwise
resolve the client IP, run enrichment and scoring, and persist exactly one
new record with validationType ip_check.  The geolocation-cache upsert and
the JSON response are not needed by any theorem below and are omitted; the
cartValue/cartItems ternaries map a zero to null exactly as the source does. -/
def validateUserRoute (store : List UserValidation) (req : ValidateUserRequest)
    (meta : RequestMeta) (cfg : GeoConfig) (oracle : GeoOutcome) (newId : String)
    (now : Nat) : List UserValidation :=
  if req.sessionId = "" then store
  else
    let ipAddress := getClientIp meta
    let ipValidation := validateUserLocation cfg oracle ipAddress req.userAgent
    let record : UserValidation :=
      { id := newId
        sessionId := req.sessionId
        ipAddress := ipAddress
        userAgent := req.userAgent
        cartValue := match req.cartValue with
          | some v => if v = 0 then none else some v
          | none => none
        cartItems := match req.cartItems with
          | some v => if v = 0 then none else some v
          | none => none
        validationType := "ip_check"
        validationResult := if ipValidation.isValid then "passed" else "failed"
        riskScore := some ipValidation.riskScore
        locationData := some ipValidation.locationData
        captchaData := none
        isBot := ipValidation.riskFactors.contains "Bot user agent detected"
        proceedToCheckout := false
        completedOrder := false
        createdAt := now }
    store ++ [record]

/-- Body of POST /api/validation/captcha after zod validation (routes.ts
lines 52-56). -/
structure CaptchaRequest where
  validationId : String
  captchaResponse : String
  captchaType : Option String := none
  deriving DecidableEq

/-- Responses of the captcha route distinguished by the theorems below. -/
inductive CaptchaRouteResponse
  | badRequest
  | notFound
  | serverError
  | ok (success : Bool) (message : String) (validationId : String)
  deriving DecidableEq

/-- The update payload the captcha route passes to updateUserValidation,
routes.ts lines 163-171; captchaType || unknown maps an absent or empty
declared type to unknown. -/
def captchaUpdatePayload (captchaType : Option String) (now : Nat) (verified : Bool) :
    ValidationUpdate :=
  { validationType := some "captcha"
    validationResult := some (if verified then "passed" else "failed")
    captchaData := some (some
      { type := match captchaType with
          | some s => if s = "" then "unknown" else s
          | none => "unknown"
        timestamp := now
        verified := verified }) }

/-- The captcha route, routes.ts lines 139-182: schema check, 404 on an
unknown validation id, CAPTCHA verification, field-level merge update.  A
throw from the store surfaces as the enclosing 500 handler. -/
def submitCaptcha (store : List UserValidation) (req : CaptchaRequest)
    (credsConfigured : Bool) (outcome : CaptchaOutcome) (now : Nat) :
    CaptchaRouteResponse × List UserValidation :=
  if req.validationId = "" ∨ req.captchaResponse = "" then (CaptchaRouteResponse.badRequest, store)
  else
    match getUserValidation store req.validationId with
    | none => (CaptchaRouteResponse.notFound, store)
    | some _ =>
      let isValidCaptcha := verifyCaptcha req.captchaResponse req.captchaType credsConfigured outcome
      match updateUserValidation store req.validationId
          (captchaUpdatePayload req.captchaType now isValidCaptcha) with
      | Except.error _ => (CaptchaRouteResponse.serverError, store)
      | Except.ok (store2, updated) =>
        (CaptchaRouteResponse.ok isValidCaptcha
          (if isValidCaptcha then "CAPTCHA verified successfully"
           else "CAPTCHA verification failed")
          updated.id, store2)

/-- Body of POST /api/validation/proceed-checkout (no zod schema; both fields
optional), routes.ts line 271. -/
structure ProceedRequest where
  validationId : Option String := none
  sessionId : Option String := none
  deriving DecidableEq

/-- Responses of the proceed-checkout route. -/
inductive ProceedResponse
  | ok
  | serverError
  deriving DecidableEq

/-- The proceed-checkout route, routes.ts lines 269-293: a truthy
validationId is updated directly (a store throw becomes a 500); otherwise a
truthy sessionId selects the last record of that session, and an empty
session is a silent success; otherwise success with no effect. -/
def proceedCheckout (store : List UserValidation) (req : ProceedRequest) :
    ProceedResponse × List UserValidation :=
  if jsTruthy req.validationId then
    match updateUserValidation store (req.validationId.getD "")
        { proceedToCheckout := some true } with
    | Except.error _ => (ProceedResponse.serverError, store)
    | Except.ok (store2, _) => (ProceedResponse.ok, store2)
  else if jsTruthy req.sessionId then
    let validations := getUserValidationsBySession store (req.sessionId.getD "")
    match validations.getLast? with
    | some latestValidation =>
      match updateUserValidation store latestValidation.id
          { proceedToCheckout := some true } with
      | Except.error _ => (ProceedResponse.serverError, store)
      | Except.ok (store2, _) => (ProceedResponse.ok, store2)
    | none => (ProceedResponse.ok, store)
  else (ProceedResponse.ok, store)

/-- The conversionRate computation of GET /api/validation/stats, routes.ts
lines 296-318: all-time totals from getValidationStats, completed orders
counted over the recent window, and a division-by-zero guard yielding the
string 0. -/
def statsConversionRate (store : List UserValidation) (thirtyDaysAgo now : Nat) : String :=
  let stats := getValidationStats store
  let recentValidations := getValidationsByDateRange store thirtyDaysAgo now
  if 0 < stats.total then
    toFixed2 (((recentValidations.filter (fun v => v.completedOrder)).length : Rat)
      / (stats.total : Rat) * 100)
  else "0"

/-! ## Operation sequences over the store -/

/-- Arguments of one validate-user call (id generation and clock passed in). -/
structure CreateCall where
  req : ValidateUserRequest
  meta : RequestMeta
  cfg : GeoConfig
  oracle : GeoOutcome
  newId : String
  now : Nat

/-- Arguments of one captcha submission call. -/
structure CaptchaCall where
  req : CaptchaRequest
  credsConfigured : Bool
  outcome : CaptchaOutcome
  now : Nat

/-- One pipeline operation against the validation store. -/
inductive PipelineOp
  | create (c : CreateCall)
  | captcha (c : CaptchaCall)

/-- Effect of one pipeline operation on the store. -/
def applyOp (store : List UserValidation) : PipelineOp → List UserValidation
  | PipelineOp.create c => validateUserRoute store c.req c.meta c.cfg c.oracle c.newId c.now
  | PipelineOp.captcha c => (submitCaptcha store c.req c.credsConfigured c.outcome c.now).2

/-- The store after a sequence of pipeline operations from the empty store. -/
def runOps (ops : List PipelineOp) : List UserValidation := ops.foldl applyOp []

/-- Every record holds a two-valued validation result. -/
def resultWellFormed (r : UserValidation) : Prop :=
  r.validationResult = "passed" ∨ r.validationResult = "failed"

/-- Concrete validation record used by witnesses: the result of a passing
ip_check evaluation. -/
def sampleRecord : UserValidation :=
  { id := "val-1"
    sessionId := "sess-1"
    ipAddress := "203.0.113.9"
    userAgent := some "Mozilla/5.0"
    cartValue := some 4999
    cartItems := some 2
    validationType := "ip_check"
    validationResult := "passed"
    riskScore := some 0
    locationData := some (getMockLocationData "203.0.113.9")
    captchaData := none
    isBot := false
    proceedToCheckout := false
    completedOrder := false
    createdAt := 5 }

/-- Concrete record with a completed order, for the stats witness. -/
def sampleRecordCompleted : UserValidation :=
  { sampleRecord with id := "val-2", completedOrder := true }

/-- Concrete reCAPTCHA assessment with a valid token and a high score. -/
def sampleAssessment : RecaptchaAssessment :=
  { tokenProperties := some { valid := true, action := some "checkout_validation" }
    riskAnalysis := some { score := some ((9 : Rat) / 10) } }

/-! # Theorems -/

/-- C1: for every enrichment result and optional user agent, the scoring step
of validateUserLocation returns a riskScore equal to the sum of the triggered
factor weights clamped to at most 100, isValid is the test riskScore below
70, and the recommendation is the deterministic threshold function of the
riskScore (block at 70 and above, challenge from 30 to 69, allow below 30);
validateUserLocation itself is definitionally validateUserScore applied to
the enrichment result. -/
theorem validateUserLocation_score_contract (ip : String) (loc : IpGeolocationData)
    (ua : Option String) :
    (validateUserScore ip loc ua).riskScore = min (claimRiskSum loc ua) 100 ∧
    (validateUserScore ip loc ua).riskScore ≤ 100 ∧
    (validateUserScore ip loc ua).isValid
      = decide ((validateUserScore ip loc ua).riskScore < 70) ∧
    (validateUserScore ip loc ua).recommendation
      = recommendationOf ((validateUserScore ip loc ua).riskScore) := by
  have hc : highRiskCountryDetected loc
      = (loc.country_code.map (fun cc => highRiskCountries.any (fun c => c = cc))).getD false := by
    unfold highRiskCountryDetected
    cases loc.country_code with
    | none => rfl
    | some cc =>
      show (if cc = "" then false else highRiskCountries.any (fun c => c = cc))
          = highRiskCountries.any (fun c => c = cc)
      by_cases h : cc = ""
      · subst h; decide
      · rw [if_neg h]
  have hd : datacenterDetected loc = (loc.isp.map isDatacenterIsp).getD false := by
    unfold datacenterDetected
    cases loc.isp with
    | none => rfl
    | some isp =>
      show (if isp = "" then false else isDatacenterIsp isp) = isDatacenterIsp isp
      by_cases h : isp = ""
      · subst h; decide
      · rw [if_neg h]
  have hb : botDetected ua = (ua.map isBotUA).getD false := by
    unfold botDetected
    cases ua with
    | none => rfl
    | some u =>
      show (if u = "" then false else isBotUA u) = isBotUA u
      by_cases h : u = ""
      · subst h; decide
      · rw [if_neg h]
  have hsum : claimRiskSum loc ua = codeRiskSum loc ua := by
    unfold claimRiskSum codeRiskSum vpnDetected proxyDetected torDetected
    rw [hc, hd, hb]
  refine ⟨?_, Nat.min_le_right _ _, ?_, ?_⟩
  · show min (codeRiskSum loc ua) 100 = min (claimRiskSum loc ua) 100
    rw [hsum]
  · show decide (codeRiskSum loc ua < 70) = decide (min (codeRiskSum loc ua) 100 < 70)
    rcases Nat.le_total (codeRiskSum loc ua) 100 with hle | hge
    · rw [Nat.min_eq_left hle]
    · rw [Nat.min_eq_right hge, decide_eq_decide]
      omega
  · show (if 70 ≤ codeRiskSum loc ua then Recommendation.block
        else if 30 ≤ codeRiskSum loc ua then Recommendation.challenge
        else Recommendation.allow)
        = recommendationOf (min (codeRiskSum loc ua) 100)
    unfold recommendationOf
    rcases Nat.le_total (codeRiskSum loc ua) 100 with hle | hge
    · rw [Nat.min_eq_left hle]
    · rw [Nat.min_eq_right hge, if_pos (by omega : 70 ≤ codeRiskSum loc ua),
        if_pos (by omega : 70 ≤ 100)]

/-- C8: the no-provider (demo-key) enrichment path is a pure function of the
IP string.  Two calls with the same IP under arbitrary (and arbitrarily
different) provider-interaction outcomes return the identical record, and
that record is exactly the deterministic mock rule-table result; the
embedding takes no clock or mutable state. -/
theorem mockMode_enrichment_deterministic (ip : String) (o1 o2 : GeoOutcome) :
    getLocationData ⟨"demo-key"⟩ o1 ip = getLocationData ⟨"demo-key"⟩ o2 ip ∧
    getLocationData ⟨"demo-key"⟩ o1 ip = getMockLocationData ip := by
  have h : ∀ o : GeoOutcome, getLocationData ⟨"demo-key"⟩ o ip = getMockLocationData ip := by
    intro o
    simp [getLocationData]
  exact ⟨(h o1).trans (h o2).symm, h o1⟩

/-- C4: getLocationData is total (never throws: every path returns a record)
and fail-soft; every returned record carries a threat level, and in provider
mode any transport error or non-ok HTTP response yields exactly the fallback
record with the request ip, country Unknown and a low threat level. -/
theorem getLocationData_fail_soft (cfg : GeoConfig) (oracle : GeoOutcome) (ip : String) :
    (getLocationData cfg oracle ip).threat_level.isSome = true ∧
    (cfg.apiKey ≠ "demo-key" → cfg.apiKey ≠ "" → geoFailure oracle = true →
      getLocationData cfg oracle ip = fallbackLocationData ip ∧
      (fallbackLocationData ip).ip = ip ∧
      (fallbackLocationData ip).threat_level = some ThreatLevel.low) := by
  constructor
  · unfold getLocationData
    split
    · unfold getMockLocationData
      dsimp only
      split
      · rfl
      · split
        · rfl
        · rfl
    · cases oracle <;> rfl
  · intro h1 h2 h3
    refine ⟨?_, rfl, rfl⟩
    have hcond : (cfg.apiKey = "demo-key" || cfg.apiKey = "") = false := by
      simp [h1, h2]
    cases oracle with
    | transportError => simp [getLocationData, hcond]
    | httpError s b => simp [getLocationData, hcond]
    | ok d => simp [geoFailure] at h3

/-- Witness for C4 at a concrete provider-mode transport error. -/
theorem getLocationData_fail_soft_witness :
    (getLocationData ⟨"real-key-123"⟩ GeoOutcome.transportError "1.2.3.4").threat_level.isSome
      = true ∧
    getLocationData ⟨"real-key-123"⟩ GeoOutcome.transportError "1.2.3.4"
      = fallbackLocationData "1.2.3.4" := by
  have h := getLocationData_fail_soft ⟨"real-key-123"⟩ GeoOutcome.transportError "1.2.3.4"
  exact ⟨h.1, (h.2 (by decide) (by decide) rfl).1⟩

/-- C5 counterexample: with a loopback peer address, a forwarded-for entry in
the 10.* private range is accepted and returned by getClientIp, although the
claim requires private-range forwarded entries to be rejected (which would
fall through to the raw peer address 203.0.113.9). -/
theorem getClientIp_private_forwarded_counterexample :
    getClientIp
      { reqIp := some "127.0.0.1"
        xForwardedFor := some "10.1.2.3"
        connectionRemoteAddress := some "203.0.113.9" } = "10.1.2.3" ∧
    sStarts (getClientIp
      { reqIp := some "127.0.0.1"
        xForwardedFor := some "10.1.2.3"
        connectionRemoteAddress := some "203.0.113.9" }) "10." = true := by
  constructor
  · rfl
  · decide

/-- C5 amended: getClientIp is the total resolver clientIpSpec: the stripped
transport peer address when truthy and outside the four private or loopback
ranges; otherwise the first trimmed forwarded-for entry, rejecting only the
127.* and 192.168.* ranges (10.* and 172.* forwarded entries are accepted);
otherwise the raw peer address, defaulting to 127.0.0.1. -/
theorem getClientIp_matches_spec (req : RequestMeta) : getClientIp req = clientIpSpec req := by
  obtain ⟨rip, xf, cra, sra⟩ := req
  simp only [getClientIp, clientIpSpec, privateRangePeer, privateRangeFwd]
  cases rip with
  | none => rfl
  | some p =>
    by_cases hp : p = ""
    · simp only [if_pos hp]
    · simp only [if_neg hp]
      by_cases hpriv : (sStarts (stripMappedV6 p) "127." || sStarts (stripMappedV6 p) "192.168."
          || sStarts (stripMappedV6 p) "10." || sStarts (stripMappedV6 p) "172.") = true
      · simp only [if_pos hpriv]
      · simp only [if_neg hpriv]

/-- C2 counterexample: a provider-backed verification in which the provider
reports the token valid but supplies no continuous risk score returns false
(the score defaults to 0, below the 0.5 threshold), although the claim
requires true. -/
theorem verifyCaptcha_missing_score_counterexample :
    verifyCaptcha "provider-token-abc" (some "recaptcha") true
      (CaptchaOutcome.ok
        { tokenProperties := some { valid := true, action := some "checkout_validation" }
          riskAnalysis := none }) = false := by
  have h : ¬ ((1 : Rat) / 2 ≤ effectiveScore
      { tokenProperties := some { valid := true, action := some "checkout_validation" }
        riskAnalysis := none }) := by
    show ¬ ((1 : Rat) / 2 ≤ 0)
    norm_num
  simp [verifyCaptcha, h]
  show (0 : Rat) < 2⁻¹
  norm_num

/-- C2 amended: for a provider-backed verification in which the provider
reports the token valid, verifyCaptcha returns the comparison of the
effective score against the fixed 0.5 threshold, where an absent continuous
score is treated as 0; in particular, with no score present the result is
false, not true. -/
theorem verifyCaptcha_valid_token_score_threshold (response : String)
    (captchaType : Option String) (result : RecaptchaAssessment)
    (tp : RecaptchaTokenProperties)
    (hresp : response ≠ "")
    (htype : captchaType.getD "recaptcha" = "recaptcha"
      ∨ captchaType.getD "recaptcha" = "google")
    (htp : result.tokenProperties = some tp) (hvalid : tp.valid = true) :
    verifyCaptcha response captchaType true (CaptchaOutcome.ok result)
      = decide ((1 : Rat) / 2 ≤ effectiveScore result) ∧
    (result.riskAnalysis.bind RecaptchaRiskAnalysis.score = none →
      verifyCaptcha response captchaType true (CaptchaOutcome.ok result) = false) := by
  have hmain : verifyCaptcha response captchaType true (CaptchaOutcome.ok result)
      = decide ((1 : Rat) / 2 ≤ effectiveScore result) := by
    rcases htype with ht | ht <;> simp [verifyCaptcha, ht, hresp, htp, hvalid, effectiveScore]
  refine ⟨hmain, fun hnone => ?_⟩
  rw [hmain]
  have hz : effectiveScore result = 0 := by
    unfold effectiveScore
    rw [hnone]
    rfl
  rw [hz]
  simp only [decide_eq_false_iff_not]
  norm_num

/-- Witness for C2 (amended) at a concrete valid-token assessment carrying
score 9/10, which passes the 0.5 threshold. -/
theorem verifyCaptcha_valid_token_score_threshold_witness :
    verifyCaptcha "provider-token-xyz" (some "google") true
      (CaptchaOutcome.ok sampleAssessment) = true := by
  have h := verifyCaptcha_valid_token_score_threshold "provider-token-xyz" (some "google")
    sampleAssessment { valid := true, action := some "checkout_validation" }
    (by decide) (Or.inr rfl) rfl rfl
  rw [h.1]
  have hs : effectiveScore sampleAssessment = (9 : Rat) / 10 := rfl
  rw [hs]
  simp only [decide_eq_true_eq]
  norm_num

/-- Looking up an id after the store replaces the record with that id yields
the replacement exactly when the lookup previously succeeded. -/
theorem getUserValidation_map_set (store : List UserValidation) (id : String)
    (upd : UserValidation) (hupd : upd.id = id) :
    getUserValidation (store.map (fun x => if x.id = id then upd else x)) id
      = (getUserValidation store id).map (fun x => if x.id = id then upd else x) := by
  unfold getUserValidation
  induction store with
  | nil => rfl
  | cons a t ih =>
    by_cases ha : a.id = id
    · simp [List.find?_cons, ha, hupd]
    · simp [List.find?_cons, ha, ih]

/-- C3: for every record that exists under the submitted validation id,
after the captcha route runs, the record under that id still exists and all
creation-time fields (riskScore, locationData, isBot, and every other field
outside validationType, validationResult, captchaData) hold exactly their
prior values: the update is a field-level merge. -/
theorem submitCaptcha_preserves_creation_fields (store : List UserValidation)
    (req : CaptchaRequest) (credsConfigured : Bool) (outcome : CaptchaOutcome) (now : Nat)
    (r : UserValidation) (h : getUserValidation store req.validationId = some r) :
    ∃ r2, getUserValidation (submitCaptcha store req credsConfigured outcome now).2
        req.validationId = some r2 ∧
      r2.riskScore = r.riskScore ∧ r2.locationData = r.locationData ∧ r2.isBot = r.isBot ∧
      r2.id = r.id ∧ r2.sessionId = r.sessionId ∧ r2.ipAddress = r.ipAddress ∧
      r2.userAgent = r.userAgent ∧ r2.cartValue = r.cartValue ∧
      r2.cartItems = r.cartItems ∧ r2.proceedToCheckout = r.proceedToCheckout ∧
      r2.completedOrder = r.completedOrder ∧ r2.createdAt = r.createdAt := by
  have hid : r.id = req.validationId := by
    have := List.find?_some h
    exact of_decide_eq_true this
  by_cases hguard : req.validationId = "" ∨ req.captchaResponse = ""
  · refine ⟨r, ?_, rfl, rfl, rfl, rfl, rfl, rfl, rfl, rfl, rfl, rfl, rfl, rfl⟩
    simp only [submitCaptcha, if_pos hguard]
    exact h
  · simp only [submitCaptcha, if_neg hguard, updateUserValidation, h]
    refine ⟨mergeUpdate r (captchaUpdatePayload req.captchaType now
      (verifyCaptcha req.captchaResponse req.captchaType credsConfigured outcome)),
      ?_, rfl, rfl, rfl, rfl, rfl, rfl, rfl, rfl, rfl, rfl, rfl, rfl⟩
    rw [getUserValidation_map_set store req.validationId
      (mergeUpdate r (captchaUpdatePayload req.captchaType now
        (verifyCaptcha req.captchaResponse req.captchaType credsConfigured outcome))) hid, h]
    simp [hid]

/-- Witness for C3 at a concrete one-record store and a mock captcha call. -/
theorem submitCaptcha_preserves_creation_fields_witness :
    ∃ r2, getUserValidation (submitCaptcha [sampleRecord]
        { validationId := "val-1", captchaResponse := "mock-captcha-response-1699999999999",
          captchaType := some "mock" } false CaptchaOutcome.transportError 777).2 "val-1"
      = some r2 ∧
      r2.riskScore = sampleRecord.riskScore ∧ r2.locationData = sampleRecord.locationData ∧
      r2.isBot = sampleRecord.isBot ∧ r2.id = sampleRecord.id ∧
      r2.sessionId = sampleRecord.sessionId ∧ r2.ipAddress = sampleRecord.ipAddress ∧
      r2.userAgent = sampleRecord.userAgent ∧ r2.cartValue = sampleRecord.cartValue ∧
      r2.cartItems = sampleRecord.cartItems ∧
      r2.proceedToCheckout = sampleRecord.proceedToCheckout ∧
      r2.completedOrder = sampleRecord.completedOrder ∧
      r2.createdAt = sampleRecord.createdAt :=
  submitCaptcha_preserves_creation_fields [sampleRecord]
    { validationId := "val-1", captchaResponse := "mock-captcha-response-1699999999999",
      captchaType := some "mock" } false CaptchaOutcome.transportError 777 sampleRecord rfl

/-- C6: a well-formed captcha submission (non-empty id and token) whose
validation id is absent from the store returns the NotFound response and
leaves the store exactly unchanged. -/
theorem submitCaptcha_unknown_id (store : List UserValidation) (req : CaptchaRequest)
    (credsConfigured : Bool) (outcome : CaptchaOutcome) (now : Nat)
    (h1 : req.validationId ≠ "") (h2 : req.captchaResponse ≠ "")
    (h : getUserValidation store req.validationId = none) :
    submitCaptcha store req credsConfigured outcome now
      = (CaptchaRouteResponse.notFound, store) := by
  have hguard : ¬ (req.validationId = "" ∨ req.captchaResponse = "") := fun hc => hc.elim h1 h2
  simp only [submitCaptcha, if_neg hguard, h]

/-- Witness for C6 at an empty store. -/
theorem submitCaptcha_unknown_id_witness :
    submitCaptcha [] { validationId := "missing-id", captchaResponse := "tok-1" } false
      CaptchaOutcome.transportError 0 = (CaptchaRouteResponse.notFound, []) :=
  submitCaptcha_unknown_id [] _ false CaptchaOutcome.transportError 0
    (by decide) (by decide) rfl

/-- A member of the store is always found by its own id. -/
theorem getUserValidation_isSome_of_mem (store : List UserValidation) (x : UserValidation)
    (hx : x ∈ store) : ∃ y, getUserValidation store x.id = some y := by
  unfold getUserValidation
  induction store with
  | nil => cases hx
  | cons a t ih =>
    by_cases ha : a.id = x.id
    · exact ⟨a, by simp [List.find?_cons, ha]⟩
    · rcases List.mem_cons.mp hx with heq | hmem
      · exact absurd (congrArg UserValidation.id heq.symm) ha
      · obtain ⟨y, hy⟩ := ih hmem
        exact ⟨y, by simp [List.find?_cons, ha, hy]⟩

/-- C7 (amended): the proceed-checkout route responds success whenever the
request carries no truthy validationId, or carries one that exists in the
store; and when no truthy validationId is given and the session has no
records the call is a no-op on the store.  (With a truthy but unknown
validationId the store update throws and the route responds with the 500
failure instead, per the counterexample.) -/
theorem proceedCheckout_success_contract (store : List UserValidation) (req : ProceedRequest)
    (hvid : jsTruthy req.validationId = true →
      ∃ ex, getUserValidation store (req.validationId.getD "") = some ex) :
    (proceedCheckout store req).1 = ProceedResponse.ok ∧
    (jsTruthy req.validationId = false →
      getUserValidationsBySession store (req.sessionId.getD "") = [] →
      (proceedCheckout store req).2 = store) := by
  by_cases hv : jsTruthy req.validationId = true
  · obtain ⟨ex, hex⟩ := hvid hv
    constructor
    · simp only [proceedCheckout, if_pos hv, updateUserValidation, hex]
    · intro hf
      rw [hv] at hf
      cases hf
  · by_cases hs : jsTruthy req.sessionId = true
    · cases hlast : (getUserValidationsBySession store (req.sessionId.getD "")).getLast? with
      | none =>
        constructor
        · simp only [proceedCheckout, if_neg hv, if_pos hs, hlast]
        · intro _ _
          simp only [proceedCheckout, if_neg hv, if_pos hs, hlast]
      | some latestValidation =>
        have hmem : latestValidation ∈ store := by
          have h1 : latestValidation
              ∈ (getUserValidationsBySession store (req.sessionId.getD "")).getLast? :=
            Option.mem_def.mpr hlast
          obtain ⟨hne, heq⟩ := List.mem_getLast?_eq_getLast h1
          have hmem2 := List.getLast_mem hne
          rw [← heq] at hmem2
          unfold getUserValidationsBySession at hmem2
          exact (List.mem_filter.mp hmem2).1
        obtain ⟨y, hy⟩ := getUserValidation_isSome_of_mem store latestValidation hmem
        constructor
        · simp only [proceedCheckout, if_neg hv, if_pos hs, hlast, updateUserValidation, hy]
        · intro _ hempty
          rw [hempty] at hlast
          cases hlast
    · constructor
      · simp only [proceedCheckout, if_neg hv, if_neg hs]
      · intro _ _
        simp only [proceedCheckout, if_neg hv, if_neg hs]

/-- Witness for C7 (amended): an unknown session id succeeds and leaves the
empty store unchanged. -/
theorem proceedCheckout_success_contract_witness :
    (proceedCheckout [] { sessionId := some "ghost-session" }).1 = ProceedResponse.ok ∧
    (proceedCheckout [] { sessionId := some "ghost-session" }).2 = [] := by
  have h := proceedCheckout_success_contract [] { sessionId := some "ghost-session" }
    (by intro hcontra; exact absurd hcontra (by decide))
  exact ⟨h.1, h.2 rfl rfl⟩

/-- C7 counterexample: with a truthy validationId that matches no record the
proceed-checkout route responds with the 500 failure, not success, refuting
the always-success contract of the claim. -/
theorem proceedCheckout_unknown_id_counterexample :
    (proceedCheckout [] { validationId := some "missing-id" }).1
      = ProceedResponse.serverError ∧
    (proceedCheckout [] { validationId := some "missing-id" }).1 ≠ ProceedResponse.ok := by
  constructor
  · rfl
  · decide

/-- C9: the conversionRate string of the stats route equals the recent
completed-order count divided by the all-time total, times 100, rendered
with two decimal places, whenever the total is positive; with a zero total
it is the literal string 0 and the division branch is never evaluated. -/
theorem conversionRate_division_guard (store : List UserValidation) (t0 t1 : Nat) :
    ((getValidationStats store).total = 0 → statsConversionRate store t0 t1 = "0") ∧
    (0 < (getValidationStats store).total →
      statsConversionRate store t0 t1
        = toFixed2 ((((getValidationsByDateRange store t0 t1).filter
              (fun v => v.completedOrder)).length : Rat)
            / ((getValidationStats store).total : Rat) * 100)) := by
  constructor
  · intro h
    simp only [statsConversionRate, h, lt_self_iff_false, if_false]
  · intro h
    simp only [statsConversionRate, if_pos h]

/-- Evaluation of the toFixed2 rendering at the value 100. -/
theorem toFixed2_at_hundred : toFixed2 100 = "100.00" := by
  simp only [toFixed2]
  have h1 : (100 : Rat) * 100 + 1 / 2 = 20001 / 2 := by norm_num
  rw [h1]
  have h2 : ratFloor ((20001 : Rat) / 2) = 10000 := by
    have hb : ratFloor ((20001 : Rat) / 2) = ⌊((20001 : Rat) / 2)⌋ := by
      rw [Rat.floor_def]
      rfl
    rw [hb, Int.floor_eq_iff]
    constructor
    · norm_num
    · norm_num
  rw [h2]
  decide

/-- Witness for C9: the zero-total guard on the empty store, and the
positive-total branch on a one-record store with a completed order. -/
theorem conversionRate_division_guard_witness :
    statsConversionRate [] 0 10 = "0" ∧
    statsConversionRate [sampleRecordCompleted] 0 10 = "100.00" := by
  constructor
  · exact (conversionRate_division_guard [] 0 10).1 rfl
  · have h := (conversionRate_division_guard [sampleRecordCompleted] 0 10).2 (by decide)
    rw [h]
    have harg : ((((getValidationsByDateRange [sampleRecordCompleted] 0 10).filter
          (fun v => v.completedOrder)).length : Rat)
        / ((getValidationStats [sampleRecordCompleted]).total : Rat) * 100) = 100 := by
      show ((1 : Nat) : Rat) / ((1 : Nat) : Rat) * 100 = 100
      norm_num
    rw [harg, toFixed2_at_hundred]

/-- The store after a captcha submission is either unchanged or the pointwise
replacement of the found record by its captcha-merged update. -/
theorem submitCaptcha_store_shape (store : List UserValidation) (req : CaptchaRequest)
    (credsConfigured : Bool) (outcome : CaptchaOutcome) (now : Nat) :
    (submitCaptcha store req credsConfigured outcome now).2 = store ∨
    ∃ ex verified, getUserValidation store req.validationId = some ex ∧
      (submitCaptcha store req credsConfigured outcome now).2
        = store.map (fun x => if x.id = req.validationId
            then mergeUpdate ex (captchaUpdatePayload req.captchaType now verified) else x) := by
  by_cases hguard : req.validationId = "" ∨ req.captchaResponse = ""
  · left
    simp only [submitCaptcha, if_pos hguard]
  · cases hget : getUserValidation store req.validationId with
    | none =>
      left
      simp only [submitCaptcha, if_neg hguard, hget]
    | some ex =>
      right
      refine ⟨ex, verifyCaptcha req.captchaResponse req.captchaType credsConfigured outcome,
        rfl, ?_⟩
      simp only [submitCaptcha, if_neg hguard, hget, updateUserValidation]

/-- Each pipeline operation preserves the two-valued validationResult
invariant: created records get passed or failed from the ip check, and the
captcha merge writes passed or failed from the verification outcome. -/
theorem applyOp_preserves_resultWellFormed (store : List UserValidation) (op : PipelineOp)
    (h : ∀ r ∈ store, resultWellFormed r) :
    ∀ r ∈ applyOp store op, resultWellFormed r := by
  cases op with
  | create c =>
    intro r hr
    simp only [applyOp, validateUserRoute] at hr
    by_cases hs : c.req.sessionId = ""
    · rw [if_pos hs] at hr
      exact h r hr
    · rw [if_neg hs] at hr
      rcases List.mem_append.mp hr with hmem | hmem
      · exact h r hmem
      · have heq : r = _ := List.mem_singleton.mp hmem
        rw [heq]
        unfold resultWellFormed
        by_cases hv : (validateUserLocation c.cfg c.oracle (getClientIp c.meta)
            c.req.userAgent).isValid = true
        · left
          simp [hv]
        · right
          simp [hv]
  | captcha c =>
    intro r hr
    simp only [applyOp] at hr
    rcases submitCaptcha_store_shape store c.req c.credsConfigured c.outcome c.now with
      hsnd | ⟨ex, verified, _, hsnd⟩
    · rw [hsnd] at hr
      exact h r hr
    · rw [hsnd] at hr
      obtain ⟨x, hx, hfx⟩ := List.mem_map.mp hr
      by_cases hxid : x.id = c.req.validationId
      · rw [if_pos hxid] at hfx
        rw [← hfx]
        unfold resultWellFormed mergeUpdate captchaUpdatePayload
        by_cases hvf : verified = true
        · left
          simp [hvf]
        · right
          simp [hvf]
      · rw [if_neg hxid] at hfx
        rw [← hfx]
        exact h x hx

/-- Splitting the record count by the two validation results: under the
invariant, every record is counted by exactly one of the passed and failed
filters. -/
theorem length_eq_passed_add_failed (l : List UserValidation)
    (h : ∀ r ∈ l, resultWellFormed r) :
    l.length = (l.filter (fun v => v.validationResult = "passed")).length
      + (l.filter (fun v => v.validationResult = "failed")).length := by
  induction l with
  | nil => rfl
  | cons a t ih =>
    have ha := h a (List.mem_cons_self a t)
    have ht : ∀ r ∈ t, resultWellFormed r := fun r hr => h r (List.mem_cons_of_mem a hr)
    have hih := ih ht
    rcases ha with ha | ha
    · have hne : ¬ (a.validationResult = "failed") := by
        rw [ha]
        decide
      simp only [List.filter_cons, ha, hne, hih]
      simp
      omega
    · have hne : ¬ (a.validationResult = "passed") := by
        rw [ha]
        decide
      simp only [List.filter_cons, ha, hne, hih]
      simp
      omega

/-- C10: after any sequence of validate-user and captcha operations starting
from the empty store, the stats rollup satisfies total = passed + failed:
every reachable record carries a two-valued validationResult. -/
theorem stats_total_eq_passed_add_failed (ops : List PipelineOp) :
    (getValidationStats (runOps ops)).total
      = (getValidationStats (runOps ops)).passed + (getValidationStats (runOps ops)).failed := by
  have key : ∀ (l : List PipelineOp) (init : List UserValidation),
      (∀ r ∈ init, resultWellFormed r) →
      ∀ r ∈ l.foldl applyOp init, resultWellFormed r := by
    intro l
    induction l with
    | nil => intro init h r hr; exact h r hr
    | cons op rest ih =>
      intro init h
      exact ih (applyOp init op) (applyOp_preserves_resultWellFormed init op h)
  have hinv : ∀ r ∈ runOps ops, resultWellFormed r :=
    key ops [] (fun r hr => absurd hr (List.not_mem_nil r))
  exact length_eq_passed_add_failed (runOps ops) hinv
